import Mathlib

/-!
Verification of the `DereplicatorAdapter` TOPP tool
(`src/utils/DereplicatorAdapter.cpp`).

The adapter's `main_` is embedded as a pure function over
  * the effective option values (after defaulting),
  * an environment describing the host system: the path-canonicalization
    function (`QFileInfo::canonicalFilePath`), the temporary directory the
    framework hands out, and the behaviour of the external process, and
  * an initial filesystem (a map from paths to file contents).
It returns the exit code, the final filesystem, the trace of side effects
the adapter itself performs, and the final value of the `debug_level_`
member.
-/

/-- Exit codes of `TOPPBase::ExitCodes` used or propagated by the adapter. -/
inductive ExitCodes where
  | EXECUTION_OK
  | INPUT_FILE_NOT_FOUND
  | INPUT_FILE_NOT_READABLE
  | INPUT_FILE_CORRUPT
  | INPUT_FILE_EMPTY
  | ILLEGAL_PARAMETERS
  | MISSING_PARAMETERS
  | UNKNOWN_ERROR
  | EXTERNAL_PROGRAM_ERROR
  | PARSE_ERROR
  | INCOMPATIBLE_INPUT_DATA
  | INTERNAL_ERROR
  | EXTERNAL_PROGRAM_NOTFOUND
  deriving DecidableEq, Repr

/-- A filesystem: a map from paths to the byte content of the file there,
`none` when no file exists at the path. -/
def FS : Type := String → Option String

/-- Side effects performed by the adapter itself during one invocation of
`main_`, in the order they happen. -/
inductive Event where
  | writeLog (msg : String)
  | tempDirCreated (dir : String)
  | tempDirRemoved (dir : String)
  | debugLevelSet (level : Int)
  | processRun (exe : String) (args : List String)
  | fileRemoved (path : String)
  | fileWritten (path : String) (content : String)
  deriving DecidableEq, Repr

/-- The effective string values of the four registered options, after the
framework applied the defaults of `registerOptionsAndFlags_`. -/
structure ToolOptions where
  in_ : String
  database : String
  out : String
  executable : String
  deriving DecidableEq, Repr

/-- Default of the `executable` option as registered in
`registerOptionsAndFlags_` (source line 123). -/
def executableDefault : String := "dereplicator.py"

/-- Host-system behaviour the adapter interacts with:
`canonicalFilePath` models `QFileInfo::canonicalFilePath` (empty string when
the path cannot be canonicalized), `tmp_dir` is the path of the temporary
directory the framework hands out (with trailing separator, as concatenated
in the source), and `runExternalProcess` models `runExternalProcess_`: given
the executable, the argument list and the current filesystem it yields the
reported exit code and the filesystem after the child ran. -/
structure Env where
  canonicalFilePath : String → String
  tmp_dir : String
  runExternalProcess : String → List String → FS → ExitCodes × FS

/-- Result of one invocation of `main_`: the returned exit code, the final
filesystem, the adapter's own side-effect trace, and the final value of the
`debug_level_` member. -/
structure RunResult where
  code : ExitCodes
  fs : FS
  events : List Event
  debug_level : Int

/-- The argument vector assembled for the external executable
(source lines 176-182). -/
def dereplicatorArguments (in_ tmp_dir database : String) : List String :=
  [in_, "-o", tmp_dir, "--db-path", database]

/-- The fatal log line of the empty-executable branch (source line 163). -/
def missingExecutableLog : String :=
  "FATAL: Executable of Dereplicator could not be found. Please either add it to PATH env variable or provide with -executable"

/-- Modelled from the spec: `makeAutoRemoveTempDirectory_` is provided by the
TOPP framework and is not part of this repository fragment; per the spec the
directory is a scoped resource that is automatically removed when `main_`
returns, on every exit path. This wraps the events of the scope between the
creation and the removal of the directory. -/
def withAutoRemoveTempDirectory (dir : String) (events : List Event) : List Event :=
  Event.tempDirCreated dir :: (events ++ [Event.tempDirRemoved dir])

/-- Shallow embedding of `TOPPDereplicatorAdapter::main_`
(source lines 130-212). A C++ `String::empty()` test is modelled as equality
with `""`; `remove(out.c_str())` removes the mapping at `out`; the final
copy (`dst << src.rdbuf()`) writes the content of
`tmp_dir ++ "significant_matches.tsv"` to `out` when that file exists and,
because the `ofstream` is created even when the `ifstream` failed to open,
writes an empty file to `out` when it does not. -/
def main_ (opts : ToolOptions) (env : Env) (fs0 : FS) (debug_level0 : Int) :
    RunResult :=
  if opts.in_ = "" then
    { code := ExitCodes.ILLEGAL_PARAMETERS, fs := fs0,
      events := [Event.writeLog "Fatal error: no input file (spectra) given"],
      debug_level := debug_level0 }
  else if opts.database = "" then
    { code := ExitCodes.ILLEGAL_PARAMETERS, fs := fs0,
      events := [Event.writeLog "Fatal error: no database given"],
      debug_level := debug_level0 }
  else if opts.out = "" then
    { code := ExitCodes.ILLEGAL_PARAMETERS, fs := fs0,
      events := [Event.writeLog "Fatal error: no output file (results) given"],
      debug_level := debug_level0 }
  else if opts.executable = "" then
    { code := ExitCodes.MISSING_PARAMETERS, fs := fs0,
      events := [Event.writeLog missingExecutableLog],
      debug_level := debug_level0 }
  else
    let executable := env.canonicalFilePath opts.executable
    let tmp_dir := env.tmp_dir
    let arguments := dereplicatorArguments opts.in_ tmp_dir opts.database
    let p := env.runExternalProcess executable arguments fs0
    if p.1 ≠ ExitCodes.EXECUTION_OK then
      { code := p.1, fs := p.2,
        events := withAutoRemoveTempDirectory tmp_dir
          [Event.debugLevelSet 100, Event.processRun executable arguments],
        debug_level := 100 }
    else
      let fs2 : FS := fun path => if path = opts.out then none else p.2 path
      if opts.out = "" then
        { code := ExitCodes.EXECUTION_OK, fs := fs2,
          events := withAutoRemoveTempDirectory tmp_dir
            [Event.debugLevelSet 100, Event.processRun executable arguments,
             Event.fileRemoved opts.out,
             Event.writeLog ("Everything is fine! Results are in " ++ opts.out)],
          debug_level := 100 }
      else
        let tmp_out := tmp_dir ++ "significant_matches.tsv"
        let copied := match fs2 tmp_out with
          | some c => c
          | none => ""
        let fs3 : FS := fun path => if path = opts.out then some copied else fs2 path
        { code := ExitCodes.EXECUTION_OK, fs := fs3,
          events := withAutoRemoveTempDirectory tmp_dir
            [Event.debugLevelSet 100, Event.processRun executable arguments,
             Event.fileRemoved opts.out, Event.fileWritten opts.out copied,
             Event.writeLog ("Everything is fine! Results are in " ++ opts.out)],
          debug_level := 100 }

/-- Environment for the C1 witness: the external process succeeds and writes
the result file with content "r" into the temp directory. -/
def envC1 : Env :=
  { canonicalFilePath := fun s => s, tmp_dir := "t/",
    runExternalProcess := fun _ _ fs =>
      (ExitCodes.EXECUTION_OK,
       fun p => if p = "t/significant_matches.tsv" then some "r" else fs p) }

/-- Environment for C2: the external process succeeds but writes nothing, so
no `significant_matches.tsv` exists in the temp directory. -/
def envC2 : Env :=
  { canonicalFilePath := fun s => s, tmp_dir := "t/",
    runExternalProcess := fun _ _ fs => (ExitCodes.EXECUTION_OK, fs) }

/-- Environment for the C3 witness: the external process fails with
INTERNAL_ERROR and touches nothing. -/
def envC3 : Env :=
  { canonicalFilePath := fun s => s, tmp_dir := "t/",
    runExternalProcess := fun _ _ fs => (ExitCodes.INTERNAL_ERROR, fs) }

/-- Environment for the C4 witness. -/
def envC4 : Env :=
  { canonicalFilePath := fun s => s, tmp_dir := "t/",
    runExternalProcess := fun _ _ fs => (ExitCodes.EXECUTION_OK, fs) }

/-- Environment for the C5 witness. -/
def envC5 : Env :=
  { canonicalFilePath := fun s => s, tmp_dir := "t/",
    runExternalProcess := fun _ _ fs => (ExitCodes.EXECUTION_OK, fs) }

/-- Environment for C6: canonicalization always fails (yields the empty
string), as `QFileInfo::canonicalFilePath` does for a nonexistent path. -/
def envC6 : Env :=
  { canonicalFilePath := fun _ => "", tmp_dir := "t/",
    runExternalProcess := fun _ _ fs => (ExitCodes.EXTERNAL_PROGRAM_ERROR, fs) }

/-- Environment for C7: the default executable name cannot be canonicalized
(it is not in the current directory), so canonicalization yields "". -/
def envC7 : Env :=
  { canonicalFilePath := fun _ => "", tmp_dir := "t/",
    runExternalProcess := fun _ _ fs => (ExitCodes.EXTERNAL_PROGRAM_ERROR, fs) }

/-- Environment for the C8 witness. -/
def envC8 : Env :=
  { canonicalFilePath := fun s => s, tmp_dir := "t/",
    runExternalProcess := fun _ _ fs => (ExitCodes.EXECUTION_OK, fs) }

/-- Environment for the C9 witness. -/
def envC9 : Env :=
  { canonicalFilePath := fun s => s, tmp_dir := "t/",
    runExternalProcess := fun _ _ fs => (ExitCodes.EXECUTION_OK, fs) }

/-- Environment for the C10 witness: the supplied executable path does not
exist on the filesystem, so canonicalization yields "". -/
def envC10 : Env :=
  { canonicalFilePath := fun _ => "", tmp_dir := "t/",
    runExternalProcess := fun _ _ fs => (ExitCodes.EXTERNAL_PROGRAM_ERROR, fs) }

/-- C1: on external-process success with `significant_matches.tsv` present in
the temp directory, `main_` removes any pre-existing file at `out` and writes
`out` byte-identical to the result file: the final content at `out` is exactly
the result file's content, independent of whatever was at `out` before, and
the trace shows the removal of `out` followed by the write. -/
theorem run_copies_result_file (opts : ToolOptions) (env : Env) (fs0 : FS)
    (dbg : Int) (c : String)
    (h1 : opts.in_ ≠ "") (h2 : opts.database ≠ "") (h3 : opts.out ≠ "")
    (h4 : opts.executable ≠ "")
    (hok : (env.runExternalProcess (env.canonicalFilePath opts.executable)
        (dereplicatorArguments opts.in_ env.tmp_dir opts.database) fs0).1 =
        ExitCodes.EXECUTION_OK)
    (hres : (env.runExternalProcess (env.canonicalFilePath opts.executable)
        (dereplicatorArguments opts.in_ env.tmp_dir opts.database) fs0).2
        (env.tmp_dir ++ "significant_matches.tsv") = some c)
    (hne : opts.out ≠ env.tmp_dir ++ "significant_matches.tsv") :
    (main_ opts env fs0 dbg).fs opts.out = some c ∧
    (main_ opts env fs0 dbg).events =
      [Event.tempDirCreated env.tmp_dir, Event.debugLevelSet 100,
       Event.processRun (env.canonicalFilePath opts.executable)
         (dereplicatorArguments opts.in_ env.tmp_dir opts.database),
       Event.fileRemoved opts.out, Event.fileWritten opts.out c,
       Event.writeLog ("Everything is fine! Results are in " ++ opts.out),
       Event.tempDirRemoved env.tmp_dir] := by
  simp only [dereplicatorArguments] at hok hres
  simp [main_, dereplicatorArguments, withAutoRemoveTempDirectory, h1, h2, h3, h4,
    hok, hres, Ne.symm hne]

/-- C1 witness: a concrete run where the process writes "r" into the result
file and `out` previously held "old"; afterwards `out` holds exactly "r". -/
theorem run_copies_result_file_witness :
    ("o" : String) ≠ envC1.tmp_dir ++ "significant_matches.tsv" ∧
    (main_ ⟨"i", "d", "o", "e"⟩ envC1
        (fun p => if p = "o" then some "old" else none) 0).fs "o" = some "r" :=
  ⟨by decide,
   (run_copies_result_file ⟨"i", "d", "o", "e"⟩ envC1
      (fun p => if p = "o" then some "old" else none) 0 "r"
      (by decide) (by decide) (by decide) (by decide) (by decide) (by decide)
      (by decide)).1⟩

/-- C2: code behaviour at the failing input. The external process succeeds but
leaves no `significant_matches.tsv` in the temp directory; `main_` still
returns EXECUTION_OK (no distinct result-file-missing error exists in the
code) and replaces the prior content "old" of `out` with an empty file. -/
theorem run_missing_result_file_behaviour :
    (main_ ⟨"i", "d", "o", "e"⟩ envC2
        (fun p => if p = "o" then some "old" else none) 0).code =
      ExitCodes.EXECUTION_OK ∧
    (main_ ⟨"i", "d", "o", "e"⟩ envC2
        (fun p => if p = "o" then some "old" else none) 0).fs "o" = some "" := by
  decide

/-- C3: when the external process reports a non-success status, `main_`
returns exactly that status, leaves the filesystem exactly as the process left
it, and its trace contains no file removal and no file write: `out` is neither
deleted nor overwritten by the adapter. -/
theorem run_propagates_external_failure (opts : ToolOptions) (env : Env)
    (fs0 : FS) (dbg : Int)
    (h1 : opts.in_ ≠ "") (h2 : opts.database ≠ "") (h3 : opts.out ≠ "")
    (h4 : opts.executable ≠ "")
    (hfail : (env.runExternalProcess (env.canonicalFilePath opts.executable)
        (dereplicatorArguments opts.in_ env.tmp_dir opts.database) fs0).1 ≠
        ExitCodes.EXECUTION_OK) :
    (main_ opts env fs0 dbg).code =
      (env.runExternalProcess (env.canonicalFilePath opts.executable)
        (dereplicatorArguments opts.in_ env.tmp_dir opts.database) fs0).1 ∧
    (main_ opts env fs0 dbg).fs =
      (env.runExternalProcess (env.canonicalFilePath opts.executable)
        (dereplicatorArguments opts.in_ env.tmp_dir opts.database) fs0).2 ∧
    (∀ q, Event.fileRemoved q ∉ (main_ opts env fs0 dbg).events) ∧
    (∀ q c, Event.fileWritten q c ∉ (main_ opts env fs0 dbg).events) := by
  simp only [dereplicatorArguments] at hfail
  simp [main_, dereplicatorArguments, withAutoRemoveTempDirectory, h1, h2, h3, h4, hfail]

/-- C3 witness: a concrete run whose external process fails with
INTERNAL_ERROR; `main_` returns INTERNAL_ERROR. -/
theorem run_propagates_external_failure_witness :
    (envC3.runExternalProcess (envC3.canonicalFilePath "e")
        (dereplicatorArguments "i" envC3.tmp_dir "d") (fun _ => none)).1 ≠
      ExitCodes.EXECUTION_OK ∧
    (main_ ⟨"i", "d", "o", "e"⟩ envC3 (fun _ => none) 0).code =
      ExitCodes.INTERNAL_ERROR :=
  ⟨by decide,
   (run_propagates_external_failure ⟨"i", "d", "o", "e"⟩ envC3 (fun _ => none) 0
     (by decide) (by decide) (by decide) (by decide) (by decide)).1⟩

/-- C4: when any of `in`, `database`, `out` is empty, `main_` returns
ILLEGAL_PARAMETERS, leaves the filesystem and the debug level unchanged, and
its trace is a single log line, the one of the first empty option in the
order in, database, out — no temp directory is created, no process is spawned
and no file is removed. -/
theorem run_validation_fail_fast (opts : ToolOptions) (env : Env) (fs0 : FS)
    (dbg : Int)
    (h : opts.in_ = "" ∨ opts.database = "" ∨ opts.out = "") :
    (main_ opts env fs0 dbg).code = ExitCodes.ILLEGAL_PARAMETERS ∧
    (main_ opts env fs0 dbg).fs = fs0 ∧
    (main_ opts env fs0 dbg).debug_level = dbg ∧
    (main_ opts env fs0 dbg).events =
      [Event.writeLog
        (if opts.in_ = "" then "Fatal error: no input file (spectra) given"
         else if opts.database = "" then "Fatal error: no database given"
         else "Fatal error: no output file (results) given")] := by
  by_cases hin : opts.in_ = ""
  · simp [main_, hin]
  · by_cases hdb : opts.database = ""
    · simp [main_, hin, hdb]
    · have hout : opts.out = "" := by tauto
      simp [main_, hin, hdb, hout]

/-- C4 witness: a concrete run with an empty `in` option returns
ILLEGAL_PARAMETERS. -/
theorem run_validation_fail_fast_witness :
    (("" : String) = "" ∨ ("d" : String) = "" ∨ ("o" : String) = "") ∧
    (main_ ⟨"", "d", "o", "e"⟩ envC4 (fun _ => none) 7).code =
      ExitCodes.ILLEGAL_PARAMETERS :=
  ⟨Or.inl rfl,
   (run_validation_fail_fast ⟨"", "d", "o", "e"⟩ envC4 (fun _ => none) 7
     (Or.inl rfl)).1⟩

/-- C5: every invocation that reaches process execution launches the external
executable with exactly the argument vector
`[in, "-o", tempDir, "--db-path", database]`, and every process launch in the
trace uses exactly that executable and that vector. -/
theorem run_argument_vector (opts : ToolOptions) (env : Env) (fs0 : FS) (dbg : Int)
    (h1 : opts.in_ ≠ "") (h2 : opts.database ≠ "") (h3 : opts.out ≠ "")
    (h4 : opts.executable ≠ "") :
    Event.processRun (env.canonicalFilePath opts.executable)
        [opts.in_, "-o", env.tmp_dir, "--db-path", opts.database] ∈
      (main_ opts env fs0 dbg).events ∧
    ∀ e a, Event.processRun e a ∈ (main_ opts env fs0 dbg).events →
      e = env.canonicalFilePath opts.executable ∧
      a = [opts.in_, "-o", env.tmp_dir, "--db-path", opts.database] := by
  by_cases hc : (env.runExternalProcess (env.canonicalFilePath opts.executable)
      (dereplicatorArguments opts.in_ env.tmp_dir opts.database) fs0).1 =
      ExitCodes.EXECUTION_OK
  · simp only [dereplicatorArguments] at hc
    simp [main_, dereplicatorArguments, withAutoRemoveTempDirectory, h1, h2, h3, h4, hc]
  · simp only [dereplicatorArguments] at hc
    simp [main_, dereplicatorArguments, withAutoRemoveTempDirectory, h1, h2, h3, h4, hc]

/-- C5 witness: a concrete run launches the process with exactly
`["i", "-o", "t/", "--db-path", "d"]`. -/
theorem run_argument_vector_witness :
    ("i" : String) ≠ "" ∧
    Event.processRun (envC5.canonicalFilePath "e")
        ["i", "-o", envC5.tmp_dir, "--db-path", "d"] ∈
      (main_ ⟨"i", "d", "o", "e"⟩ envC5 (fun _ => none) 0).events :=
  ⟨by decide,
   (run_argument_vector ⟨"i", "d", "o", "e"⟩ envC5 (fun _ => none) 0
     (by decide) (by decide) (by decide) (by decide)).1⟩

/-- C6 counterexample: an invocation whose executable resolution yields the
empty path (`canonicalFilePath "/no/such/tool" = ""`) does not fail with the
missing-executable error and does create the temporary directory, refuting
the claim as stated. -/
theorem run_invalid_executable_not_rejected :
    envC6.canonicalFilePath "/no/such/tool" = "" ∧
    (main_ ⟨"i", "d", "o", "/no/such/tool"⟩ envC6 (fun _ => none) 0).code ≠
      ExitCodes.MISSING_PARAMETERS ∧
    Event.tempDirCreated "t/" ∈
      (main_ ⟨"i", "d", "o", "/no/such/tool"⟩ envC6 (fun _ => none) 0).events := by
  decide

/-- C6 (amended): only when the `executable` option string itself is empty
does `main_` fail with the missing-executable error; that error is
MISSING_PARAMETERS, distinct from the ILLEGAL_PARAMETERS used for
in/database/out, and it occurs before any temporary directory is created
(filesystem unchanged, no tempDirCreated event). -/
theorem run_empty_executable_fails (opts : ToolOptions) (env : Env) (fs0 : FS)
    (dbg : Int)
    (h1 : opts.in_ ≠ "") (h2 : opts.database ≠ "") (h3 : opts.out ≠ "")
    (h4 : opts.executable = "") :
    (main_ opts env fs0 dbg).code = ExitCodes.MISSING_PARAMETERS ∧
    ExitCodes.MISSING_PARAMETERS ≠ ExitCodes.ILLEGAL_PARAMETERS ∧
    (main_ opts env fs0 dbg).fs = fs0 ∧
    ∀ d, Event.tempDirCreated d ∉ (main_ opts env fs0 dbg).events := by
  simp [main_, h1, h2, h3, h4]

/-- C6 witness: a concrete run with an explicitly empty executable option
returns MISSING_PARAMETERS. -/
theorem run_empty_executable_fails_witness :
    ("" : String) = "" ∧
    (main_ ⟨"i", "d", "o", ""⟩ envC6 (fun _ => none) 0).code =
      ExitCodes.MISSING_PARAMETERS :=
  ⟨rfl,
   (run_empty_executable_fails ⟨"i", "d", "o", ""⟩ envC6 (fun _ => none) 0
     (by decide) (by decide) (by decide) rfl).1⟩

/-- C7: code behaviour at the failing input. The `executable` option defaults
to "dereplicator.py"; when that default cannot be canonicalized (the tool is
on the search path but not in the current directory, so
`canonicalFilePath` yields ""), `main_` does not fail with a
missing-executable error: it passes the empty canonicalized path directly to
the process launcher, contradicting the documented PATH-based resolution. -/
theorem run_default_executable_unresolved_behaviour :
    executableDefault = "dereplicator.py" ∧
    (main_ ⟨"i", "d", "o", executableDefault⟩ envC7 (fun _ => none) 0).code ≠
      ExitCodes.MISSING_PARAMETERS ∧
    Event.processRun "" ["i", "-o", "t/", "--db-path", "d"] ∈
      (main_ ⟨"i", "d", "o", executableDefault⟩ envC7 (fun _ => none) 0).events := by
  decide

/-- C8: every invocation whose trace shows the creation of a temporary
directory also shows its removal, on every exit path (success and
external-process failure alike): no temp directory is left behind. -/
theorem run_temp_dir_removed (opts : ToolOptions) (env : Env) (fs0 : FS)
    (dbg : Int) (d : String)
    (h : Event.tempDirCreated d ∈ (main_ opts env fs0 dbg).events) :
    Event.tempDirRemoved d ∈ (main_ opts env fs0 dbg).events := by
  by_cases hin : opts.in_ = ""
  · simp [main_, hin] at h
  · by_cases hdb : opts.database = ""
    · simp [main_, hin, hdb] at h
    · by_cases hout : opts.out = ""
      · simp [main_, hin, hdb, hout] at h
      · by_cases hexe : opts.executable = ""
        · simp [main_, hin, hdb, hout, hexe] at h
        · by_cases hc : (env.runExternalProcess (env.canonicalFilePath opts.executable)
              (dereplicatorArguments opts.in_ env.tmp_dir opts.database) fs0).1 =
              ExitCodes.EXECUTION_OK
          · simp only [dereplicatorArguments] at hc
            simp [main_, dereplicatorArguments, withAutoRemoveTempDirectory,
              hin, hdb, hout, hexe, hc] at h ⊢
            simp [h]
          · simp only [dereplicatorArguments] at hc
            simp [main_, dereplicatorArguments, withAutoRemoveTempDirectory,
              hin, hdb, hout, hexe, hc] at h ⊢
            simp [h]

/-- C8 witness: a concrete successful run creates the temp directory "t/" and
its trace also contains the removal of "t/". -/
theorem run_temp_dir_removed_witness :
    Event.tempDirCreated "t/" ∈
      (main_ ⟨"i", "d", "o", "e"⟩ envC8 (fun _ => none) 0).events ∧
    Event.tempDirRemoved "t/" ∈
      (main_ ⟨"i", "d", "o", "e"⟩ envC8 (fun _ => none) 0).events :=
  ⟨by decide,
   run_temp_dir_removed ⟨"i", "d", "o", "e"⟩ envC8 (fun _ => none) 0 "t/"
     (by decide)⟩

/-- C9: every invocation that passes validation and the executable check sets
`debug_level_` to 100 immediately before launching the external process —
the trace begins with the temp-directory creation, then the debug-level
mutation, then the process launch — and the final debug level is 100
whatever verbosity the user configured, on both the success and the failure
path. -/
theorem run_sets_debug_level (opts : ToolOptions) (env : Env) (fs0 : FS)
    (dbg : Int)
    (h1 : opts.in_ ≠ "") (h2 : opts.database ≠ "") (h3 : opts.out ≠ "")
    (h4 : opts.executable ≠ "") :
    (main_ opts env fs0 dbg).debug_level = 100 ∧
    ∃ rest, (main_ opts env fs0 dbg).events =
      Event.tempDirCreated env.tmp_dir :: Event.debugLevelSet 100 ::
      Event.processRun (env.canonicalFilePath opts.executable)
        (dereplicatorArguments opts.in_ env.tmp_dir opts.database) :: rest := by
  by_cases hc : (env.runExternalProcess (env.canonicalFilePath opts.executable)
      (dereplicatorArguments opts.in_ env.tmp_dir opts.database) fs0).1 =
      ExitCodes.EXECUTION_OK
  · simp only [dereplicatorArguments] at hc
    simp [main_, dereplicatorArguments, withAutoRemoveTempDirectory, h1, h2, h3, h4, hc]
  · simp only [dereplicatorArguments] at hc
    simp [main_, dereplicatorArguments, withAutoRemoveTempDirectory, h1, h2, h3, h4, hc]

/-- C9 witness: a concrete run configured with user debug level 42 ends with
debug level 100. -/
theorem run_sets_debug_level_witness :
    ("i" : String) ≠ "" ∧
    (main_ ⟨"i", "d", "o", "e"⟩ envC9 (fun _ => none) 42).debug_level = 100 :=
  ⟨by decide,
   (run_sets_debug_level ⟨"i", "d", "o", "e"⟩ envC9 (fun _ => none) 42
     (by decide) (by decide) (by decide) (by decide)).1⟩

/-- C10: the missing-executable branch is taken only on an empty `executable`
option string; since the option defaults to "dereplicator.py" (non-empty),
any invocation with a non-empty executable option — in particular one whose
path does not exist, for any canonicalization behaviour whatsoever — proceeds
past the check: the temp directory is created and the canonicalization result
is passed directly to the process launcher. -/
theorem run_executable_check_only_on_empty_string (opts : ToolOptions)
    (env : Env) (fs0 : FS) (dbg : Int)
    (h1 : opts.in_ ≠ "") (h2 : opts.database ≠ "") (h3 : opts.out ≠ "")
    (h4 : opts.executable ≠ "") :
    executableDefault = "dereplicator.py" ∧
    executableDefault ≠ "" ∧
    (∃ rest, (main_ opts env fs0 dbg).events =
      Event.tempDirCreated env.tmp_dir :: rest) ∧
    Event.processRun (env.canonicalFilePath opts.executable)
      (dereplicatorArguments opts.in_ env.tmp_dir opts.database) ∈
      (main_ opts env fs0 dbg).events := by
  by_cases hc : (env.runExternalProcess (env.canonicalFilePath opts.executable)
      (dereplicatorArguments opts.in_ env.tmp_dir opts.database) fs0).1 =
      ExitCodes.EXECUTION_OK
  · simp only [dereplicatorArguments] at hc
    simp [main_, dereplicatorArguments, withAutoRemoveTempDirectory, h1, h2, h3, h4, hc,
      executableDefault]
  · simp only [dereplicatorArguments] at hc
    simp [main_, dereplicatorArguments, withAutoRemoveTempDirectory, h1, h2, h3, h4, hc,
      executableDefault]

/-- C10 witness: a concrete run with a non-empty executable path that does not
exist (canonicalization yields "") still launches the process, with the empty
canonicalized path. -/
theorem run_executable_check_only_on_empty_string_witness :
    ("/bad/path" : String) ≠ "" ∧
    Event.processRun (envC10.canonicalFilePath "/bad/path")
      (dereplicatorArguments "i" envC10.tmp_dir "d") ∈
      (main_ ⟨"i", "d", "o", "/bad/path"⟩ envC10 (fun _ => none) 0).events :=
  ⟨by decide,
   (run_executable_check_only_on_empty_string ⟨"i", "d", "o", "/bad/path"⟩ envC10
     (fun _ => none) 0 (by decide) (by decide) (by decide) (by decide)).2.2.2⟩
